import Mathlib

/-
Verification of the tool-orchestration core of the mcp-streamlit repository.

The embedding models, faithfully to the Python source:
  * app/core/mcp_server.py   — MCPServer (tool registry, call_tool)
  * app/tools/serper_search.py — SerperSearchTool (HTTP search capability)
  * app/services/chatbot.py  — MCPChatbot (intent detection, message pipeline,
                               result formatting, summarization)
  * app.py                   — the monolithic copy of the formatter (cap 3)

Network and oracle effects are modelled as explicit outcome parameters: the
HTTP layer is an `HttpResult`, each OpenAI call an `OracleResult` or
`ClassifierOutcome`.  Python dicts with optional keys are modelled with
`Option` fields (`none` = key absent).  Python `dict` insertion is modelled by
an insertion-ordered association list with replace-in-place semantics.
-/

namespace MCP

/-- Role of a chat turn as used by the chatbot (the system role only appears
in oracle request message lists). -/
inductive Role where
  | system
  | user
  | assistant
deriving DecidableEq

/-- One message of the conversation history: a `{"role": ..., "content": ...}`
dict in the Python source. -/
structure Turn where
  role : Role
  content : String
deriving DecidableEq

/-- One entry of the `organic` array of a Serper payload.  Each key may be
absent (`result.get(...)` in the source). -/
structure OrganicResult where
  title : Option String
  snippet : Option String
  link : Option String
deriving DecidableEq

/-- The optional `knowledgeGraph` object of a Serper payload. -/
structure KnowledgeGraph where
  title : Option String
  description : Option String
  link : Option String
deriving DecidableEq

/-- A search payload dict as consumed by `_format_search_response` and
`_summarize_search_results`: the keys `error`, `organic`, `knowledgeGraph`,
each possibly absent. -/
structure SearchData where
  error : Option String
  organic : Option (List OrganicResult)
  knowledgeGraph : Option KnowledgeGraph
deriving DecidableEq

/-- The schema dict returned by a tool's `get_schema` (name, description and
the `required` list of its JSON-schema parameters). -/
structure ToolSchema where
  name : String
  description : String
  required : List String
deriving DecidableEq

/-- Outcome of awaiting a tool's `execute`: it either returns a payload dict
or raises an exception with message `msg`. -/
inductive ExecOutcome where
  | returns (data : SearchData)
  | raises (msg : String)
deriving DecidableEq

/-- The keyword arguments `process_message` passes to `call_tool`: only
`query`, which may be `None`. -/
structure ToolArgs where
  query : Option String
deriving DecidableEq

/-- A registered tool: its schema and the behaviour of its `execute`. -/
structure MCPTool where
  schema : ToolSchema
  exec : ToolArgs → ExecOutcome

/-- `MCPServer.register_tool`: `self.tools[name] = tool` on a Python dict,
i.e. replace-in-place when the key exists (keeping its position), append
otherwise. -/
def registerTool (name : String) (tool : MCPTool) :
    List (String × MCPTool) → List (String × MCPTool)
  | [] => [(name, tool)]
  | (n, t) :: rest =>
      if n = name then (name, tool) :: rest
      else (n, t) :: registerTool name tool rest

/-- `MCPServer.list_tools`: enumerate `{"name": name, "schema": tool.get_schema()}`
in insertion order. -/
def listTools (tools : List (String × MCPTool)) : List (String × ToolSchema) :=
  tools.map (fun p => (p.1, p.2.schema))

/-- Dict lookup `self.tools[name]` / `name not in self.tools`. -/
def lookupTool (tools : List (String × MCPTool)) (name : String) : Option MCPTool :=
  match tools with
  | [] => none
  | (n, t) :: rest => if n = name then some t else lookupTool rest name

/-- The dict returned by `MCPServer.call_tool`: possible keys `success`,
`result`, `error` (`none` = key absent). -/
structure CallResult where
  success : Option Bool
  result : Option SearchData
  error : Option String
deriving DecidableEq

/-- `MCPServer.call_tool`: unknown name yields `{"error": ...}`; a tool whose
`execute` returns yields `{"success": True, "result": ...}`; a raising
`execute` is caught and yields `{"error": "Tool execution failed: ..."}`. -/
def callTool (tools : List (String × MCPTool)) (name : String) (args : ToolArgs) :
    CallResult :=
  match lookupTool tools name with
  | none =>
      { success := none, result := none,
        error := some ("Tool \x27" ++ name ++ "\x27 not found") }
  | some t =>
      match t.exec args with
      | ExecOutcome.returns d =>
          { success := some true, result := some d, error := none }
      | ExecOutcome.raises e =>
          { success := none, result := none,
            error := some ("Tool execution failed: " ++ e) }

/-- Outcome of the HTTP POST inside `SerperSearchTool.execute`: either a
response with a status code (with `statusText` the message of the
`HTTPStatusError` the client library would raise on a non-2xx status — text
produced by httpx, not by this repository), a parsed JSON `body`, or an
exception raised by the client (timeout / transport failure). -/
inductive HttpResult where
  | response (status : Nat) (statusText : String) (body : SearchData)
  | raised (msg : String)
deriving DecidableEq

/-- `SerperSearchTool.execute`: `raise_for_status` raises on any non-2xx
status; every exception in the `try` block (timeout, transport failure,
status error) is caught and turned into the dict
`{"error": "Search failed: ..."}` — the function itself never raises. -/
def serperExecute (http : HttpResult) : ExecOutcome :=
  match http with
  | HttpResult.response status statusText body =>
      if 200 ≤ status ∧ status < 300 then ExecOutcome.returns body
      else ExecOutcome.returns
        { error := some ("Search failed: " ++ statusText),
          organic := none, knowledgeGraph := none }
  | HttpResult.raised msg =>
      ExecOutcome.returns
        { error := some ("Search failed: " ++ msg),
          organic := none, knowledgeGraph := none }

/-- `SerperSearchTool.get_schema` (its JSON-schema `required` list). -/
def serperSchema : ToolSchema :=
  { name := "search", description := "Search the web using Serper API",
    required := ["query"] }

/-- The Serper search tool, parameterized by the HTTP world (what the network
returns for given arguments). -/
def serperTool (http : ToolArgs → HttpResult) : MCPTool :=
  { schema := serperSchema, exec := fun args => serperExecute (http args) }

/-- The accumulator loop of `_format_search_response` over
`search_data["organic"][:cap]`, enumerating from `i`. -/
def formatOrganicLoop (i : Nat) (acc : String) : List OrganicResult → String
  | [] => acc
  | r :: rest =>
      formatOrganicLoop (i + 1)
        (acc ++ "**" ++ toString i ++ ". " ++ r.title.getD "No title" ++ "**\n"
             ++ r.snippet.getD "No description" ++ "\n"
             ++ "🔗 " ++ r.link.getD "" ++ "\n\n") rest

/-- `MCPChatbot._format_search_response` (app/services/chatbot.py): error
payloads short-circuit; otherwise up to 5 organic entries are rendered,
followed by an optional quick-answer block. -/
def formatSearchResponse (d : SearchData) : String :=
  match d.error with
  | some e => "Search error: " ++ e
  | none =>
      let r1 :=
        match d.organic with
        | some results => formatOrganicLoop 1 "Here\x27s what I found:\n\n" (results.take 5)
        | none => "Here\x27s what I found:\n\n"
      match d.knowledgeGraph with
      | some kg =>
          match kg.description with
          | some desc => r1 ++ "**Quick Answer:** " ++ desc ++ "\n\n"
          | none => r1
      | none => r1

/-- `MCPChatbot._format_search_response` as duplicated in app.py: identical
except that it renders `search_data["organic"][:3]`. -/
def formatSearchResponseApp (d : SearchData) : String :=
  match d.error with
  | some e => "Search error: " ++ e
  | none =>
      let r1 :=
        match d.organic with
        | some results => formatOrganicLoop 1 "Here\x27s what I found:\n\n" (results.take 3)
        | none => "Here\x27s what I found:\n\n"
      match d.knowledgeGraph with
      | some kg =>
          match kg.description with
          | some desc => r1 ++ "**Quick Answer:** " ++ desc ++ "\n\n"
          | none => r1
      | none => r1

/-- Python `str.isspace`-style test for the characters `str.strip` removes
(the common whitespace characters; the rarer vertical-tab and form-feed are
included as well for fidelity). -/
def isPyWhitespace (c : Char) : Bool :=
  c = ' ' || c = '\t' || c = '\n' || c = '\r' || c = '\x0b' || c = '\x0c'

/-- Python `str.strip()` (no argument): drop leading and trailing whitespace. -/
def pyStrip (s : String) : String :=
  String.mk ((((s.data.dropWhile isPyWhitespace).reverse).dropWhile isPyWhitespace).reverse)

/-- Whether `needle` occurs as a prefix of `hay` (character lists). -/
def beginsWith : List Char → List Char → Bool
  | [], _ => true
  | _ :: _, [] => false
  | a :: as, b :: bs => a = b && beginsWith as bs

/-- Whether `needle` occurs as a contiguous sublist of `hay`. -/
def charsContain (needle : List Char) : List Char → Bool
  | [] => needle.isEmpty
  | c :: rest => beginsWith needle (c :: rest) || charsContain needle rest

/-- Whether the string `needle` occurs as a substring of `hay`. -/
def strContains (hay needle : String) : Bool :=
  charsContain needle.data hay.data

/-- The parsed JSON decision dict returned by the classification oracle and
consumed with `.get` in `process_message`: each key may be absent, and
`search_query` may be present with value `null` (`some none`). -/
structure IntentDecision where
  needsSearchField : Option Bool
  searchQueryField : Option (Option String)
  reasoningField : Option String
deriving DecidableEq

/-- Outcome of the classification oracle call in
`_detect_search_intent_with_openai`: the API call raises, or returns content
that fails `json.loads`, or returns a parsed decision dict. -/
inductive ClassifierOutcome where
  | apiError (msg : String)
  | unparseable (content : String)
  | parsed (d : IntentDecision)
deriving DecidableEq

/-- The fixed system prompt of `_detect_search_intent_with_openai`,
transcribed from the Python triple-quoted literal. -/
def intentSystemPrompt : String :=
  "\n        You are an intent detection system for a chatbot that can search the web.\n\n        Analyze the user\x27s message and determine:\n        1. Whether they need current information, facts, or data that would require a web search\n        2. What the optimal search query should be\n\n        Return a JSON response with:\n        - \"needs_search\": boolean (true if web search is needed)\n        - \"search_query\": string (the optimized search query, or null if no search needed)\n        - \"reasoning\": string (brief explanation of your decision)\n\n        Examples:\n        - \"What time/date is it?\" → needs_search: true, search_query: \"current datetime\"\n        - \"What\x27s the weather like?\" → needs_search: true, search_query: \"current weather\"\n        - \"Hello, how are you?\" → needs_search: false, search_query: null\n        - \"Tell me about quantum computing\" → needs_search: true, search_query: \"quantum computing latest developments\"\n        - \"What\x27s 2+2?\" → needs_search: false, search_query: null\n        - \"Latest news about AI\" → needs_search: true, search_query: \"latest AI news 2024\"\n        - \"How to make coffee\" → needs_search: true, search_query: \"how to make coffee step by step\"\n\n        Focus on detecting when users need current, factual, or specific information that would benefit from a web search.\n        "

/-- The message list `_detect_search_intent_with_openai` sends to the oracle:
the system prompt, then `self.conversation_history[:-1]` (the history at call
time without its last element, which is the current message appended by
`process_message`), then the current message as a user turn. -/
def classifierRequest (history : List Turn) (message : String) : List Turn :=
  Turn.mk Role.system intentSystemPrompt ::
    (history.dropLast ++ [Turn.mk Role.user message])

/-- `_detect_search_intent_with_openai`: a parsed decision is returned as is;
unparseable content and API errors both fall back to the literal default dict
`{"needs_search": False, "search_query": None, "reasoning": ...}`. -/
def detectSearchIntent (o : ClassifierOutcome) : IntentDecision :=
  match o with
  | ClassifierOutcome.parsed d => d
  | ClassifierOutcome.unparseable _ =>
      { needsSearchField := some false, searchQueryField := some none,
        reasoningField := some "Failed to parse OpenAI response as JSON" }
  | ClassifierOutcome.apiError e =>
      { needsSearchField := some false, searchQueryField := some none,
        reasoningField := some ("OpenAI API error: " ++ e) }

/-- Outcome of a generation-oracle call: the returned message content, or the
message of the exception it raised. -/
inductive OracleResult where
  | ok (content : String)
  | failed (msg : String)
deriving DecidableEq

/-- `MCPChatbot._generate_openai_response`: on success the stripped content,
on any exception the fixed apology embedding the error message. -/
def generateOpenaiResponse (o : OracleResult) : String :=
  match o with
  | OracleResult.ok content => pyStrip content
  | OracleResult.failed e =>
      "I\x27m having trouble connecting to my AI services. Please try again in a moment. Error: " ++ e

/-- One entry of the simplified result list `_summarize_search_results` embeds
in its oracle prompt. -/
structure SimpleResult where
  title : String
  snippet : String
  link : String
deriving DecidableEq

/-- The `simplified_results` list built by `_summarize_search_results` from a
payload: up to 5 organic entries (placeholders for missing keys), then a
knowledge-graph entry when one with a description is present. -/
def simplifiedResults (d : SearchData) : List SimpleResult :=
  (match d.organic with
   | some results =>
       (results.take 5).map (fun r =>
         { title := r.title.getD "No title",
           snippet := r.snippet.getD "No description",
           link := r.link.getD "" })
   | none => []) ++
  (match d.knowledgeGraph with
   | some kg =>
       match kg.description with
       | some desc =>
           [{ title := kg.title.getD "Knowledge Graph", snippet := desc,
              link := kg.link.getD "" }]
       | none => []
   | none => [])

/-- `MCPChatbot._summarize_search_results`: on success the stripped summary
under the AI-Summary header; on any exception the fixed fallback note. -/
def summarizeSearchResults (o : OracleResult) : String :=
  match o with
  | OracleResult.ok content => "**AI Summary:**\n\n" ++ pyStrip content
  | OracleResult.failed _ =>
      "I found some search results but couldn\x27t generate a summary. Please see the raw results below."

/-- The external world one `process_message` call runs against: the outcome
of the classification-oracle call, the registered tools (with their network
behaviour), and the outcomes of the summarization and conversational oracle
calls (used only on the paths that issue them). -/
structure ChatEnv where
  classifierOutcome : ClassifierOutcome
  tools : List (String × MCPTool)
  summarizeOutcome : OracleResult
  converseOutcome : OracleResult

/-- Result of one `process_message` call: the updated conversation history,
the returned response, and a trace of the oracle/tool invocations the call
issued (request message list of the classifier; name and kwargs of each
`call_tool`; simplified results and query of each summarization call; number
of conversational-oracle calls). -/
structure ProcessResult where
  history : List Turn
  response : String
  classifierCalls : List (List Turn)
  toolCalls : List (String × ToolArgs)
  summarizeCalls : List (List SimpleResult × String)
  converseCalls : Nat

/-- `MCPChatbot.process_message`: append the user turn, classify, then either
call the search tool (success branch formats, summarizes and concatenates;
failure branch produces the apology with the error detail) or generate a
conversational reply; finally append the assistant turn.  The
`st.session_state.last_intent` debug store is effect-free for this model. -/
def processMessage (env : ChatEnv) (history0 : List Turn) (message : String) :
    ProcessResult :=
  let h1 := history0 ++ [Turn.mk Role.user message]
  let intentResult := detectSearchIntent env.classifierOutcome
  if intentResult.needsSearchField.getD false then
    let searchQuery : Option String :=
      match intentResult.searchQueryField with
      | some v => v
      | none => some message
    let result := callTool env.tools "search" { query := searchQuery }
    if result.success.getD false then
      let searchData := result.result.getD
        { error := none, organic := none, knowledgeGraph := none }
      let rawResponse := formatSearchResponse searchData
      let summary := summarizeSearchResults env.summarizeOutcome
      let response := summary ++ "\n\n**Raw Search Results:**\n\n" ++ rawResponse
      { history := h1 ++ [Turn.mk Role.assistant response], response := response,
        classifierCalls := [classifierRequest h1 message],
        toolCalls := [("search", { query := searchQuery })],
        summarizeCalls := [(simplifiedResults searchData, message)],
        converseCalls := 0 }
    else
      let response :=
        "Sorry, I couldn\x27t search for that. Error: " ++ result.error.getD "Unknown error"
      { history := h1 ++ [Turn.mk Role.assistant response], response := response,
        classifierCalls := [classifierRequest h1 message],
        toolCalls := [("search", { query := searchQuery })],
        summarizeCalls := [], converseCalls := 0 }
  else
    let response := generateOpenaiResponse env.converseOutcome
    { history := h1 ++ [Turn.mk Role.assistant response], response := response,
      classifierCalls := [classifierRequest h1 message],
      toolCalls := [], summarizeCalls := [], converseCalls := 1 }

/-- Helper: appending to a non-empty string yields a non-empty string. -/
theorem append_ne_empty_left (s t : String) (h : s ≠ "") : s ++ t ≠ "" := by
  intro he
  apply h
  have hd := congrArg String.data he
  rw [String.data_append] at hd
  have h0 : s.data = [] := (List.append_eq_nil.mp (by simpa using hd)).1
  exact String.ext (by simpa using h0)

/-- Helper: `register_tool` leaves the key at `some tool` under lookup. -/
theorem lookupTool_registerTool_self (name : String) (t : MCPTool)
    (reg : List (String × MCPTool)) :
    lookupTool (registerTool name t reg) name = some t := by
  induction reg with
  | nil => simp [registerTool, lookupTool]
  | cons hd tl ih =>
      obtain ⟨n, tool⟩ := hd
      by_cases h : n = name
      · subst h; simp [registerTool, lookupTool]
      · simp [registerTool, lookupTool, h, ih]

/-- Helper: the number of registry entries under a key after `register_tool`
is one if the key was absent and unchanged otherwise. -/
theorem countP_registerTool (name : String) (t : MCPTool)
    (reg : List (String × MCPTool)) :
    (registerTool name t reg).countP (fun p => p.1 == name) =
      if reg.countP (fun p => p.1 == name) = 0 then 1
      else reg.countP (fun p => p.1 == name) := by
  induction reg with
  | nil => simp [registerTool]
  | cons hd tl ih =>
      obtain ⟨n, tool⟩ := hd
      by_cases h : n = name
      · subst h
        simp [registerTool, List.countP_cons]
      · have hb : (n == name) = false := by simp [h]
        simp only [registerTool, if_neg h, List.countP_cons, hb, ite_false,
          Nat.add_zero, ih]
        simp

/-- Helper: `list_tools` preserves the per-name entry count. -/
theorem countP_listTools (reg : List (String × MCPTool)) (name : String) :
    (listTools reg).countP (fun p => p.1 == name) =
      reg.countP (fun p => p.1 == name) := by
  induction reg with
  | nil => simp [listTools]
  | cons hd tl ih =>
      simp [listTools, List.countP_cons, ih]
      simp [listTools] at ih
      simp [ih]

/-- Rendering of a single enumerated organic entry as produced by the body of
the formatter loop: numbered bold title (placeholder when absent), snippet
(placeholder when absent) and link (empty string when absent). -/
def entryBlock (i : Nat) (r : OrganicResult) : String :=
  "**" ++ toString i ++ ". " ++ r.title.getD "No title" ++ "**\n"
    ++ r.snippet.getD "No description" ++ "\n"
    ++ "🔗 " ++ r.link.getD "" ++ "\n\n"

/-- The optional quick-answer block appended after the enumerated entries. -/
def quickAnswer : Option KnowledgeGraph → String
  | some kg =>
      match kg.description with
      | some desc => "**Quick Answer:** " ++ desc ++ "\n\n"
      | none => ""
  | none => ""

/-- C2: every call to `process_message`, whatever the classifier, tool and
oracle outcomes, turns the history `h` into `h` with exactly one user turn
carrying the message and then exactly one assistant turn carrying the
returned response appended, in that order, leaving the existing turns
untouched. -/
theorem c2_process_message_appends_user_then_assistant
    (env : ChatEnv) (h : List Turn) (M : String) :
    (processMessage env h M).history =
      h ++ [Turn.mk Role.user M,
            Turn.mk Role.assistant (processMessage env h M).response] := by
  simp only [processMessage]
  split
  · split <;> simp
  · simp

/-- C8: the request `process_message` sends to the classification oracle is
the fixed system instruction, then the prior history in full, then the
message being classified as the final user entry, which therefore appears
exactly once. -/
theorem c8_classifier_request_is_system_history_message
    (env : ChatEnv) (h : List Turn) (M : String) :
    (processMessage env h M).classifierCalls =
      [Turn.mk Role.system intentSystemPrompt :: (h ++ [Turn.mk Role.user M])] := by
  simp only [processMessage]
  split
  · split <;> simp [classifierRequest, List.dropLast_concat]
  · simp [classifierRequest, List.dropLast_concat]

/-- C9: for every registry, tool name and argument set, `call_tool` returns a
dict that is either `{"success": True, "result": payload}` or
`{"error": message}` — the `success` key appears only in the first shape, and
no exception escapes (a raising `execute` is modelled by
`ExecOutcome.raises`, which `call_tool` converts into the error shape). -/
theorem c9_call_tool_always_returns_result_dict
    (tools : List (String × MCPTool)) (name : String) (args : ToolArgs) :
    (∃ d, callTool tools name args =
        { success := some true, result := some d, error := none }) ∨
    (∃ m, callTool tools name args =
        { success := none, result := none, error := some m }) := by
  rcases hl : lookupTool tools name with _ | t
  · exact Or.inr ⟨"Tool \x27" ++ name ++ "\x27 not found", by simp [callTool, hl]⟩
  · rcases he : t.exec args with d | e
    · exact Or.inl ⟨d, by simp [callTool, hl, he]⟩
    · exact Or.inr ⟨"Tool execution failed: " ++ e, by simp [callTool, hl, he]⟩

/-- C6: registering a tool under `"search"` twice, with any two tool values,
into a registry that has no `"search"` entry leaves exactly one entry named
`"search"` in the `list_tools` enumeration, and the registered value is the
second tool (the second registration replaces the first). -/
theorem c6_register_search_twice_single_entry
    (t1 t2 : MCPTool) (reg : List (String × MCPTool))
    (h0 : (listTools reg).countP (fun p => p.1 == "search") = 0) :
    (listTools (registerTool "search" t2 (registerTool "search" t1 reg))).countP
        (fun p => p.1 == "search") = 1 ∧
    lookupTool (registerTool "search" t2 (registerTool "search" t1 reg)) "search" =
      some t2 := by
  constructor
  · rw [countP_listTools] at h0 ⊢
    rw [countP_registerTool, countP_registerTool, h0]
    simp
  · exact lookupTool_registerTool_self _ _ _

/-- A first concrete tool value for the C6 witness. -/
def c6Tool1 : MCPTool :=
  { schema := { name := "search", description := "first", required := [] },
    exec := fun _ => ExecOutcome.raises "unused" }

/-- A second concrete tool value for the C6 witness. -/
def c6Tool2 : MCPTool :=
  { schema := { name := "search", description := "second", required := [] },
    exec := fun _ => ExecOutcome.raises "unused" }

/-- Witness for C6 at the empty registry and two concrete tools. -/
theorem c6_register_search_twice_single_entry_witness :
    (listTools (registerTool "search" c6Tool2 (registerTool "search" c6Tool1 []))).countP
        (fun p => p.1 == "search") = 1 ∧
    lookupTool (registerTool "search" c6Tool2 (registerTool "search" c6Tool1 [])) "search" =
      some c6Tool2 :=
  c6_register_search_twice_single_entry c6Tool1 c6Tool2 [] rfl

/-- C3: when the classification oracle call raises or its output fails JSON
parsing, the decision is the default with `needs_search = false` and a null
`search_query`, the tool is never called, and (as long as a successful
conversational oracle reply does not strip to the empty string, which the
code passes through unchanged) the pipeline still returns a non-empty
response. -/
theorem c3_classifier_failure_degrades_gracefully
    (env : ChatEnv) (h : List Turn) (M : String)
    (hc : (∃ m, env.classifierOutcome = ClassifierOutcome.apiError m) ∨
          (∃ c, env.classifierOutcome = ClassifierOutcome.unparseable c))
    (ho : ∀ s, env.converseOutcome = OracleResult.ok s → pyStrip s ≠ "") :
    (detectSearchIntent env.classifierOutcome).needsSearchField = some false ∧
    (detectSearchIntent env.classifierOutcome).searchQueryField = some none ∧
    (processMessage env h M).toolCalls = [] ∧
    (processMessage env h M).response ≠ "" := by
  have hfields : (detectSearchIntent env.classifierOutcome).needsSearchField = some false ∧
      (detectSearchIntent env.classifierOutcome).searchQueryField = some none := by
    obtain ⟨m, hm⟩ | ⟨c, hm⟩ := hc <;> simp [hm, detectSearchIntent]
  refine ⟨hfields.1, hfields.2, ?_, ?_⟩
  · simp [processMessage, hfields.1]
  · simp only [processMessage, hfields.1, Option.getD_some, if_neg Bool.false_ne_true]
    cases hco : env.converseOutcome with
    | ok s => simpa [generateOpenaiResponse] using ho s hco
    | failed e =>
        simp only [generateOpenaiResponse]
        exact append_ne_empty_left _ _ (by decide)

/-- Concrete environment for the C3 witness: the classification oracle call
raises, the conversational oracle succeeds. -/
def c3Env : ChatEnv :=
  { classifierOutcome := ClassifierOutcome.apiError "connection refused",
    tools := [],
    summarizeOutcome := OracleResult.ok "unused",
    converseOutcome := OracleResult.ok "Hello! How can I help?" }

/-- Witness for C3 at a concrete failing classifier call. -/
theorem c3_classifier_failure_degrades_gracefully_witness :
    (detectSearchIntent c3Env.classifierOutcome).needsSearchField = some false ∧
    (detectSearchIntent c3Env.classifierOutcome).searchQueryField = some none ∧
    (processMessage c3Env [] "hi").toolCalls = [] ∧
    (processMessage c3Env [] "hi").response ≠ "" :=
  c3_classifier_failure_degrades_gracefully c3Env [] "hi"
    (Or.inl ⟨"connection refused", rfl⟩)
    (fun s hs => by
      injection hs with hs2
      subst hs2
      decide)

/-- Concrete environment refuting the unconditional non-emptiness part of
C3: the classification oracle call raises, and the conversational oracle
succeeds with an empty reply. -/
def c3EmptyEnv : ChatEnv :=
  { classifierOutcome := ClassifierOutcome.apiError "connection refused",
    tools := [],
    summarizeOutcome := OracleResult.ok "unused",
    converseOutcome := OracleResult.ok "" }

/-- Counterexample to C3 as stated: with a failing classification-oracle
call, a conversational oracle that succeeds with the empty string makes
`process_message` return the empty response — the degraded pipeline does not
always return a non-empty string. -/
theorem c3_empty_reply_counterexample :
    (detectSearchIntent c3EmptyEnv.classifierOutcome).needsSearchField = some false ∧
    (processMessage c3EmptyEnv [] "hi").response = "" := by
  refine ⟨by decide, by decide⟩

/-- C4: when the classifier decides a search is needed but no tool named
`"search"` is registered, `process_message` returns the tool-not-found error
response and the summarization step (and its oracle call) is never reached. -/
theorem c4_missing_search_tool_short_circuits
    (env : ChatEnv) (h : List Turn) (M : String)
    (hns : (detectSearchIntent env.classifierOutcome).needsSearchField.getD false = true)
    (habs : lookupTool env.tools "search" = none) :
    (processMessage env h M).response =
      "Sorry, I couldn\x27t search for that. Error: Tool \x27search\x27 not found" ∧
    (processMessage env h M).summarizeCalls = [] := by
  have hcall : ∀ args, callTool env.tools "search" args =
      { success := none, result := none,
        error := some ("Tool \x27" ++ "search" ++ "\x27 not found") } := by
    intro args
    simp [callTool, habs]
  constructor <;> simp [processMessage, hns, hcall]

/-- Concrete environment for the C4 witness: search intent detected, empty
registry. -/
def c4Env : ChatEnv :=
  { classifierOutcome := ClassifierOutcome.parsed
      { needsSearchField := some true, searchQueryField := some (some "news"),
        reasoningField := some "needs current data" },
    tools := [],
    summarizeOutcome := OracleResult.ok "unused",
    converseOutcome := OracleResult.ok "unused" }

/-- Witness for C4 at a concrete environment with no registered tools. -/
theorem c4_missing_search_tool_short_circuits_witness :
    (processMessage c4Env [] "news?").response =
      "Sorry, I couldn\x27t search for that. Error: Tool \x27search\x27 not found" ∧
    (processMessage c4Env [] "news?").summarizeCalls = [] :=
  c4_missing_search_tool_short_circuits c4Env [] "news?" rfl rfl

/-- C7: when the search invocation succeeds (the `call_tool` envelope carries
`success = True` with payload `data`) but the summarization oracle call
fails, the final response is the fixed explanatory note followed by the full
raw formatted results block — the raw results are never lost. -/
theorem c7_raw_results_survive_summary_failure
    (env : ChatEnv) (h : List Turn) (M : String) (data : SearchData) (e : String)
    (hns : (detectSearchIntent env.classifierOutcome).needsSearchField.getD false = true)
    (hcall : ∀ args, callTool env.tools "search" args =
        { success := some true, result := some data, error := none })
    (hsf : env.summarizeOutcome = OracleResult.failed e) :
    (processMessage env h M).response =
      "I found some search results but couldn\x27t generate a summary. Please see the raw results below."
        ++ "\n\n**Raw Search Results:**\n\n" ++ formatSearchResponse data := by
  simp [processMessage, hns, hcall, hsf, summarizeSearchResults]

/-- Concrete successful payload for the C7 witness. -/
def c7Data : SearchData :=
  { error := none,
    organic := some [{ title := some "T", snippet := some "S", link := some "L" }],
    knowledgeGraph := none }

/-- Concrete environment for the C7 witness: search intent detected, a search
tool that returns `c7Data`, a failing summarization oracle. -/
def c7Env : ChatEnv :=
  { classifierOutcome := ClassifierOutcome.parsed
      { needsSearchField := some true, searchQueryField := some (some "q"),
        reasoningField := none },
    tools := [("search",
      { schema := serperSchema, exec := fun _ => ExecOutcome.returns c7Data })],
    summarizeOutcome := OracleResult.failed "rate limited",
    converseOutcome := OracleResult.ok "unused" }

/-- Witness for C7 at a concrete successful search and failing summarizer. -/
theorem c7_raw_results_survive_summary_failure_witness :
    (processMessage c7Env [] "find T").response =
      "I found some search results but couldn\x27t generate a summary. Please see the raw results below."
        ++ "\n\n**Raw Search Results:**\n\n" ++ formatSearchResponse c7Data :=
  c7_raw_results_survive_summary_failure c7Env [] "find T" c7Data "rate limited"
    rfl (fun _ => rfl) rfl

/-- C10: when the parsed decision has `needs_search = true` and the
`search_query` key present with value `null`, `process_message` invokes the
search tool with a null query (not with the original message); the fallback
to the original message happens only when the `search_query` key is absent
from the decision dict. -/
theorem c10_null_query_passed_through
    (env : ChatEnv) (h : List Turn) (M : String) (d : IntentDecision)
    (hc : env.classifierOutcome = ClassifierOutcome.parsed d)
    (hns : d.needsSearchField = some true) :
    (d.searchQueryField = some none →
      (processMessage env h M).toolCalls = [("search", { query := none })]) ∧
    (d.searchQueryField = none →
      (processMessage env h M).toolCalls = [("search", { query := some M })]) := by
  constructor <;> intro hq
  all_goals
    simp only [processMessage, hc, detectSearchIntent, hns, hq, Option.getD_some]
    split
    case isTrue => split <;> rfl
    case isFalse hf => exact absurd (by trivial) hf

/-- Concrete environment for the C10 witness: `search_query` present and
null. -/
def c10EnvNull : ChatEnv :=
  { classifierOutcome := ClassifierOutcome.parsed
      { needsSearchField := some true, searchQueryField := some none,
        reasoningField := none },
    tools := [],
    summarizeOutcome := OracleResult.ok "unused",
    converseOutcome := OracleResult.ok "unused" }

/-- Concrete environment for the C10 witness: `search_query` key absent. -/
def c10EnvAbsent : ChatEnv :=
  { classifierOutcome := ClassifierOutcome.parsed
      { needsSearchField := some true, searchQueryField := none,
        reasoningField := none },
    tools := [],
    summarizeOutcome := OracleResult.ok "unused",
    converseOutcome := OracleResult.ok "unused" }

/-- Witness for C10: with the key null the tool gets a null query, with the
key absent it gets the original message. -/
theorem c10_null_query_passed_through_witness :
    (processMessage c10EnvNull [] "hi").toolCalls = [("search", { query := none })] ∧
    (processMessage c10EnvAbsent [] "hi").toolCalls = [("search", { query := some "hi" })] :=
  ⟨(c10_null_query_passed_through c10EnvNull [] "hi" _ rfl rfl).1 rfl,
   (c10_null_query_passed_through c10EnvAbsent [] "hi" _ rfl rfl).2 rfl⟩

/-- C5: for a successful payload whose `organic` array starts with 5 entries
(followed by arbitrarily many more), the raw-formatted block of the chatbot
formatter enumerates exactly those 5 entries — numbered 1 to 5, each
rendering its title, snippet and link with the fixed placeholders for a
missing title or snippet and the empty string for a missing link — and the
app.py copy of the formatter enumerates only the first 3; both therefore
enumerate at most 5 entries. -/
theorem c5_formatter_enumerates_at_most_five
    (r1 r2 r3 r4 r5 : OrganicResult) (extra : List OrganicResult)
    (kg : Option KnowledgeGraph) :
    formatSearchResponse
        { error := none, organic := some ([r1, r2, r3, r4, r5] ++ extra),
          knowledgeGraph := kg } =
      "Here\x27s what I found:\n\n" ++ entryBlock 1 r1 ++ entryBlock 2 r2
        ++ entryBlock 3 r3 ++ entryBlock 4 r4 ++ entryBlock 5 r5 ++ quickAnswer kg ∧
    formatSearchResponseApp
        { error := none, organic := some ([r1, r2, r3, r4, r5] ++ extra),
          knowledgeGraph := kg } =
      "Here\x27s what I found:\n\n" ++ entryBlock 1 r1 ++ entryBlock 2 r2
        ++ entryBlock 3 r3 ++ quickAnswer kg := by
  have htake5 : ([r1, r2, r3, r4, r5] ++ extra).take 5 = [r1, r2, r3, r4, r5] := rfl
  have htake3 : ([r1, r2, r3, r4, r5] ++ extra).take 3 = [r1, r2, r3] := rfl
  constructor
  all_goals
    cases kg with
    | none =>
        simp only [formatSearchResponse, formatSearchResponseApp, htake5, htake3,
          formatOrganicLoop, entryBlock, quickAnswer, String.append_assoc,
          String.append_empty]
    | some k =>
        obtain ⟨kt, kd, kl⟩ := k
        cases kd with
        | none =>
            simp only [formatSearchResponse, formatSearchResponseApp, htake5, htake3,
              formatOrganicLoop, entryBlock, quickAnswer, String.append_assoc,
              String.append_empty]
        | some desc =>
            simp only [formatSearchResponse, formatSearchResponseApp, htake5, htake3,
              formatOrganicLoop, entryBlock, quickAnswer, String.append_assoc,
              String.append_empty]

/-- Concrete failing environment for C1: the classifier requests a search,
the Serper tool is registered, and the HTTP request raises (e.g. a timeout);
the summarization oracle succeeds. -/
def c1Env : ChatEnv :=
  { classifierOutcome := ClassifierOutcome.parsed
      { needsSearchField := some true, searchQueryField := some (some "latest news"),
        reasoningField := some "needs web data" },
    tools := registerTool "search"
      (serperTool (fun _ => HttpResult.raised "timeout")) [],
    summarizeOutcome := OracleResult.ok "Here are the findings.",
    converseOutcome := OracleResult.ok "unused" }

/-- C1 fails on the code: evaluated at a concrete HTTP-layer failure
(timeout; the 500-status case behaves identically), `SerperSearchTool.execute`
swallows the exception and returns the dict `{"error": ...}`, so
`call_tool` delivers an `{"success": True, ...}` envelope carrying that error
payload — not an `Err` envelope; `process_message` then takes the success
branch, still issues the summarization-oracle call (over an empty
simplified-results list), and its final response carries the oracle summary
and `"Search error: ..."` but no occurrence of `"couldn"`, contradicting the
claimed `"couldn\x27t"` failure marker. -/
theorem c1_http_failure_wrapped_as_ok_with_fabricated_summary :
    serperExecute (HttpResult.raised "timeout") =
      ExecOutcome.returns
        { error := some "Search failed: timeout", organic := none,
          knowledgeGraph := none } ∧
    serperExecute (HttpResult.response 500 "Internal Server Error"
        { error := none, organic := none, knowledgeGraph := none }) =
      ExecOutcome.returns
        { error := some "Search failed: Internal Server Error", organic := none,
          knowledgeGraph := none } ∧
    callTool c1Env.tools "search" { query := some "latest news" } =
      { success := some true,
        result := some
          { error := some "Search failed: timeout", organic := none,
            knowledgeGraph := none },
        error := none } ∧
    (processMessage c1Env [] "What is new?").response =
      "**AI Summary:**\n\nHere are the findings.\n\n**Raw Search Results:**\n\nSearch error: Search failed: timeout" ∧
    strContains (processMessage c1Env [] "What is new?").response "couldn" = false ∧
    (processMessage c1Env [] "What is new?").summarizeCalls = [([], "What is new?")] := by
  refine ⟨by decide, by decide, by decide, by decide, by decide, by decide⟩

end MCP
